import Mathlib

/-!
Verification development for the LOVEStruck photo booth (src/src/PhotoBooth.jsx).

The file embeds, as executable Lean definitions, the parts of the source that the
specification talks about:

* the static catalogs FILTERS / OVERLAYS / PROMPTS (lines 14-42);
* `capturePhoto` (lines 103-127), modelled as a function from an optional video
  source to an optional still image;
* the capture sequencer `startSequence` / `runSequence` / `resetBooth`
  (lines 129-167), modelled as a state machine whose pending JavaScript timers
  (the `setInterval` of a countdown, the 1000ms `setTimeout` between shots and
  the 150ms flash-off `setTimeout`) are explicit values in the state.  Firing a
  pending timer is an explicit event, so arbitrary interleavings of user actions
  and timer callbacks can be examined.  Each `Frame` carries a ghost `gen`
  field recording which `startSequence` call created the sequence that captured
  it; the dynamics never read this field;
* the strip compositor effect (lines 190-303): layout constants, the center-crop
  computation, the per-cell draw-operation lists including overlay decorations
  and the footer, and the `mode === review && photos.length === 3` render guard;
* `downloadStrip` (lines 181-187) and the filter/overlay selection handlers
  (lines 429-443 and 467-477).

JavaScript numbers are modelled by `Nat`/`Int` where the program only ever holds
integers, and by `ℚ` for the fractional crop arithmetic; both are exact, which
is the idealisation the specification itself uses ("within rounding").
-/

namespace PhotoBooth

/-- A filter catalog entry (source lines 14-23).  `cssClass` is the display-time
Tailwind class string (field `class` in the source, renamed because `class` is a
Lean keyword); `canvasFilter` is the pixel-level canvas filter string used by the
compositor.  The React icon elements of overlays are presentation-only and are
not modelled. -/
structure Filter where
  id : String
  name : String
  cssClass : String
  canvasFilter : String
deriving DecidableEq, Repr

/-- The FILTERS catalog, source lines 14-23. -/
def FILTERS : List Filter :=
  [{ id := "normal", name := "Natural", cssClass := "",
     canvasFilter := "none" },
   { id := "warm", name := "Golden Hour",
     cssClass := "sepia-[.3] contrast-110 saturate-125 hue-rotate-[-10deg]",
     canvasFilter := "sepia(30%) contrast(110%) saturate(125%) hue-rotate(-10deg)" },
   { id := "vintage", name := "Vintage",
     cssClass := "sepia-[.6] contrast-90 brightness-90 saturate-85",
     canvasFilter := "sepia(60%) contrast(90%) brightness(90%) saturate(85%)" },
   { id := "bw", name := "Classic B&W",
     cssClass := "grayscale contrast-110 brightness-110",
     canvasFilter := "grayscale(100%) contrast(110%) brightness(110%)" },
   { id := "noir", name := "Noir",
     cssClass := "grayscale contrast-150 brightness-90",
     canvasFilter := "grayscale(100%) contrast(150%) brightness(90%)" },
   { id := "soft", name := "Pastel",
     cssClass := "contrast-90 brightness-110 saturate-85",
     canvasFilter := "contrast(90%) brightness(110%) saturate(85%)" },
   { id := "cyber", name := "Cyberpunk",
     cssClass := "contrast-125 saturate-150 hue-rotate-[180deg] brightness-110",
     canvasFilter := "contrast(125%) saturate(150%) hue-rotate(180deg) brightness(110%)" },
   { id := "cool", name := "Cool Tone",
     cssClass := "hue-rotate-[30deg] saturate-90 contrast-110",
     canvasFilter := "hue-rotate(30deg) saturate(90%) contrast(110%)" }]

/-- An overlay catalog entry (source lines 25-31); the icon element is
presentation-only and not modelled. -/
structure Overlay where
  id : String
  name : String
deriving DecidableEq, Repr

/-- The OVERLAYS catalog, source lines 25-31. -/
def OVERLAYS : List Overlay :=
  [{ id := "none", name := "None" },
   { id := "hearts", name := "Hearts" },
   { id := "sparkles", name := "Sparkles" },
   { id := "vignette", name := "Vignette" },
   { id := "grain", name := "Film Grain" }]

/-- The PROMPTS list, source lines 33-42. -/
def PROMPTS : List String :=
  ["Lean in close...",
   "Give a gentle hug!",
   "Big smiles!",
   "Look at each other...",
   "Blow a kiss!",
   "Make a silly face!",
   "Strike a pose!",
   "Chin up, smile!"]

/-- A live video source: the current intrinsic size of the video element
(`video.videoWidth` / `video.videoHeight`). -/
structure VideoSource where
  videoWidth : Nat
  videoHeight : Nat
deriving DecidableEq, Repr

/-- The in-memory encoding of a still image produced by `canvas.toDataURL`.
JPEG is a lossy format; PNG is lossless.  A JPEG quality of 0.95 is recorded
as 95 (percent). -/
inductive ImageEncoding
  | jpeg (qualityPct : Nat)
  | png
deriving DecidableEq, Repr

/-- Whether an encoding is lossless: PNG is, JPEG is not. -/
def ImageEncoding.lossless : ImageEncoding → Bool
  | ImageEncoding.png => true
  | ImageEncoding.jpeg _ => false

/-- A captured still image (the data URL produced by `capturePhoto`):
its pixel dimensions, whether its horizontal axis is mirrored relative to the
source, and its in-memory encoding.  There is no filter field: `capturePhoto`
never sets `ctx.filter`, so captured frames are unfiltered (the live preview
filter is CSS-only). -/
structure CapturedImage where
  width : Nat
  height : Nat
  mirroredX : Bool
  encoding : ImageEncoding
deriving DecidableEq, Repr

/-- `capturePhoto`, source lines 103-127.  If the video (or canvas) ref is
unavailable the function returns early with `undefined` (modelled as `none`).
Otherwise the canvas is sized to `video.videoWidth × video.videoHeight` with no
check that the intrinsic size is nonzero, the context is mirrored with
`translate` + `scale(-1, 1)`, and the result is encoded by
`canvas.toDataURL(image/jpeg, 0.95)` - a lossy JPEG produced at capture time. -/
def capturePhoto (video : Option VideoSource) : Option CapturedImage :=
  match video with
  | none => none
  | some v =>
      some { width := v.videoWidth, height := v.videoHeight,
             mirroredX := true, encoding := ImageEncoding.jpeg 95 }

/-- The encoding used by the export step: `downloadStrip` (source line 185)
calls `stripCanvasRef.current.toDataURL()` with no arguments, which produces a
PNG. -/
def exportEncoding : ImageEncoding := ImageEncoding.png

/-! ## The capture sequencer (source lines 129-167)

React state plus the set of pending JavaScript timers.  The source stores mode
in `mode`, the photo list in `photos` (appended to with
`setPhotos(prev => [...prev, photo])`), the visible countdown in `countdown`,
the current prompt in `currentPrompt` and the flash flag in `flashActive`.
`startSequence` and `resetBooth` contain no `clearInterval`/`clearTimeout`:
they leave every pending timer in place. -/

/-- The booth mode, source line 48.  The comment there also names `capturing`,
but no code path ever calls `setMode("capturing")`; the constructor is kept for
completeness and is unused. -/
inductive Mode
  | idle
  | countdown
  | capturing
  | review
deriving DecidableEq, Repr

/-- A captured frame in the photo list, tagged with the ghost generation of the
`startSequence` call whose sequence captured it. -/
structure Frame where
  gen : Nat
  img : CapturedImage
deriving DecidableEq, Repr

/-- A pending JavaScript timer.
`interval count timerVal gen` is the countdown `setInterval` created by
`runSequence(count)`, whose closure variable `timer` currently holds
`timerVal`; `delay count gen` is the 1000ms `setTimeout` that will call
`runSequence(count)`; `flashOff` is the 150ms `setTimeout` that clears the
flash.  `gen` is the ghost generation of the sequence that created the timer;
the dynamics never read it. -/
inductive Timer
  | interval (count : Nat) (timerVal : Int) (gen : Nat)
  | delay (count : Nat) (gen : Nat)
  | flashOff
deriving DecidableEq, Repr

/-- Whether a timer belongs to the capture sequencing chain (a countdown
interval or an inter-shot delay), as opposed to the cosmetic flash-off timer. -/
def Timer.isSeq : Timer → Bool
  | Timer.flashOff => false
  | _ => true

/-- Number of pending sequencing timers. -/
def seqCount (l : List Timer) : Nat := l.countP Timer.isSeq

/-- The sequencer state: the React state variables of the component together
with the list of pending timers and the ghost session generation counter
(number of `startSequence` calls so far). -/
structure BoothState where
  mode : Mode
  photos : List (Option Frame)
  countdown : Option Int
  currentPrompt : String
  flashActive : Bool
  timers : List Timer
  gen : Nat
deriving DecidableEq, Repr

/-- The initial component state (source lines 46-54). -/
def boothInit : BoothState :=
  { mode := Mode.idle, photos := [], countdown := none, currentPrompt := "",
    flashActive := false, timers := [], gen := 0 }

/-- `runSequence`, source lines 135-161, as the synchronous part of one call:
if `count >= 3` it enters review; otherwise it picks a prompt (the
`Math.random()` draw is supplied as the oracle `r`, reduced mod the list length
exactly as `Math.floor(Math.random() * PROMPTS.length)` always yields a valid
index), sets the visible countdown to 3 and registers the countdown interval.
The interval firing itself is `fireTimer` below.  `g` is the ghost generation
of the chain making this call. -/
def runSequence (g : Nat) (r : Nat) (count : Nat) (s : BoothState) : BoothState :=
  if count ≥ 3 then
    { s with mode := Mode.review }
  else
    { s with currentPrompt := PROMPTS.getD (r % PROMPTS.length) "",
             countdown := some 3,
             timers := s.timers ++ [Timer.interval count 3 g] }

/-- `startSequence`, source lines 129-133: set mode to countdown, clear the
photo list and call `runSequence(0)`.  No pending timer is cleared.  The ghost
generation is incremented. -/
def startSequence (r : Nat) (s : BoothState) : BoothState :=
  runSequence (s.gen + 1) r 0
    { s with mode := Mode.countdown, photos := [], gen := s.gen + 1 }

/-- `resetBooth`, source lines 163-167: clear photos, return to idle, clear the
visible countdown number.  No pending timer is cleared. -/
def resetBooth (s : BoothState) : BoothState :=
  { s with photos := [], mode := Mode.idle, countdown := none }

/-- Fire the pending timer at index `i` (a no-op if there is none), with `src`
the state of the video source at that instant and `r` the random oracle for a
prompt draw.  Mirrors the interval callback at source lines 147-160: decrement
`timer`, publish it to `countdown`; at zero clear the interval, call
`capturePhoto` (which triggers the flash and schedules the 150ms flash-off
timeout only when it does not return early), append the result - whatever it is
- to `photos`, and schedule `runSequence(count + 1)` after 1000ms.  A `delay`
timer runs `runSequence(count)`; the flash-off timer clears the flash flag. -/
def fireTimer (i : Nat) (src : Option VideoSource) (r : Nat) (s : BoothState) :
    BoothState :=
  match s.timers[i]? with
  | none => s
  | some Timer.flashOff =>
      { s with flashActive := false, timers := s.timers.eraseIdx i }
  | some (Timer.interval count tv g) =>
      if tv - 1 = 0 then
        match capturePhoto src with
        | none =>
            { s with countdown := some (tv - 1),
                     photos := s.photos ++ [none],
                     timers := s.timers.eraseIdx i ++ [Timer.delay (count + 1) g] }
        | some img =>
            { s with countdown := some (tv - 1),
                     flashActive := true,
                     photos := s.photos ++ [some { gen := g, img := img }],
                     timers := s.timers.eraseIdx i
                               ++ [Timer.flashOff, Timer.delay (count + 1) g] }
      else
        { s with countdown := some (tv - 1),
                 timers := s.timers.set i (Timer.interval count (tv - 1) g) }
  | some (Timer.delay count g) =>
      runSequence g r count { s with timers := s.timers.eraseIdx i }

/-- An externally observable event: a user action (`start` via the shutter
button, `reset` via the New Session button) or the browser firing the pending
timer at index `i`. -/
inductive BoothEvent
  | start (r : Nat)
  | reset
  | fire (i : Nat) (src : Option VideoSource) (r : Nat)
deriving DecidableEq, Repr

/-- Step the booth by one event. -/
def boothStep (e : BoothEvent) (s : BoothState) : BoothState :=
  match e with
  | BoothEvent.start r => startSequence r s
  | BoothEvent.reset => resetBooth s
  | BoothEvent.fire i src r => fireTimer i src r s

/-- Run a list of events from a state. -/
def runBooth (es : List BoothEvent) (s : BoothState) : BoothState :=
  es.foldl (fun s e => boothStep e s) s

/-- A timer-firing event: index, video source at that instant, random oracle. -/
def FireEv : Type := Nat × Option VideoSource × Nat

/-- Run a list of timer firings (no user action in between). -/
def runFires (fs : List FireEv) (s : BoothState) : BoothState :=
  fs.foldl (fun s f => fireTimer f.1 f.2.1 f.2.2 s) s

/-! ## The strip compositor (source lines 181-303) -/

/-- Layout constant, source line 195. -/
def photoWidth : Nat := 600

/-- Layout constant, source line 196 (4:3 aspect). -/
def photoHeight : Nat := 450

/-- Layout constant, source line 197. -/
def gap : Nat := 30

/-- Layout constant, source line 198 (space for sprocket holes). -/
def sidePadding : Nat := 80

/-- Layout constant, source line 199. -/
def topPadding : Nat := 60

/-- Layout constant, source line 200. -/
def bottomPadding : Nat := 100

/-- Strip canvas width, source line 203: `photoWidth + sidePadding * 2`. -/
def totalWidth : Nat := photoWidth + sidePadding * 2

/-- Strip canvas height, source line 204:
`topPadding + photoHeight * 3 + gap * 2 + bottomPadding`. -/
def totalHeight : Nat := topPadding + photoHeight * 3 + gap * 2 + bottomPadding

/-- The destination cell aspect ratio `dRatio = photoWidth / photoHeight`,
source line 250. -/
def cellAspect : ℚ := (photoWidth : ℚ) / (photoHeight : ℚ)

/-- The source crop rectangle `sx, sy, sW, sH` computed in the image onload
handler, source lines 246-263. -/
structure CropRect where
  sx : ℚ
  sy : ℚ
  sW : ℚ
  sH : ℚ
deriving DecidableEq, Repr

/-- The center-crop computation, source lines 246-263: if the source is wider
than the destination aspect, keep the full height and crop left/right
symmetrically; otherwise keep the full width and crop top/bottom
symmetrically. -/
def cropRect (sWidth sHeight : ℚ) : CropRect :=
  let srcAspect := sWidth / sHeight
  if srcAspect > cellAspect then
    let sH := sHeight
    let sW := sH * cellAspect
    { sx := (sWidth - sW) / 2, sy := 0, sW := sW, sH := sH }
  else
    let sW := sWidth
    let sH := sW / cellAspect
    { sx := 0, sy := (sHeight - sH) / 2, sW := sW, sH := sH }

/-- A canvas drawing operation issued while compositing the strip.  Styling
state (fill style, font) that the source sets immediately before a drawing call
is carried on the operation itself. -/
inductive DrawOp
  | fillRect (x y w h : ℚ) (color : String)
  | roundRect (x y w h r : ℚ) (color : String)
  | setFilter (f : String)
  | drawImage (sx sy sW sH dx dy dW dH : ℚ)
  | radialGradientRect (cx cy r0 r1 : ℚ) (c0 c1 : String) (x y w h : ℚ)
  | setTextAlign (a : String)
  | fillText (txt : String) (x y : ℚ) (font : String) (color : String)
deriving Repr

/-- Vertical offset of photo cell `i`, source line 237:
`topPadding + i * (photoHeight + gap)`. -/
def cellYPos (i : Nat) : ℚ := (topPadding : ℚ) + (i : ℚ) * ((photoHeight : ℚ) + (gap : ℚ))

/-- The overlay decoration drawn inside one photo cell, source lines 268-284:
vignette fills the cell with a radial darkening gradient centred on the cell
(inner radius `photoHeight * 0.3`, outer `photoHeight * 0.8`, transparent at
the centre, 0.6 black at the edge); hearts first resets `ctx.filter` to `none`
and then draws two heart glyphs at fixed corner offsets; every other overlay id
draws nothing in this pass. -/
def overlayOps (overlayId : String) (yPos : ℚ) : List DrawOp :=
  if overlayId = "vignette" then
    [DrawOp.radialGradientRect
      ((sidePadding : ℚ) + (photoWidth : ℚ) / 2) (yPos + (photoHeight : ℚ) / 2)
      ((photoHeight : ℚ) * (3 / 10)) ((photoHeight : ℚ) * (8 / 10))
      ("rgba(0,0,0,0)") ("rgba(0,0,0,0.6)")
      (sidePadding : ℚ) yPos (photoWidth : ℚ) (photoHeight : ℚ)]
  else if overlayId = "hearts" then
    [DrawOp.setFilter ("none"),
     DrawOp.fillText ("♥") ((sidePadding : ℚ) + 20) (yPos + 50)
       ("40px serif") ("rgba(255, 150, 150, 0.7)"),
     DrawOp.fillText ("♥") ((sidePadding : ℚ) + (photoWidth : ℚ) - 50)
       (yPos + (photoHeight : ℚ) - 20)
       ("40px serif") ("rgba(255, 150, 150, 0.7)")]
  else []

/-- The footer drawn after the third cell, source lines 289-298: the title line
and the date line, centred at `totalWidth / 2`, in monospaced Courier New.
`dateStr` is the upper-cased locale date string, a nondeterministic input. -/
def footerOps (dateStr : String) : List DrawOp :=
  [DrawOp.setTextAlign ("center"),
   DrawOp.fillText ("MEMORIES") ((totalWidth : ℚ) / 2) ((totalHeight : ℚ) - 50)
     ("bold 32px Courier New") ("#ffffff"),
   DrawOp.fillText dateStr ((totalWidth : ℚ) / 2) ((totalHeight : ℚ) - 25)
     ("16px Courier New") ("#888888")]

/-- The draw operations of one image onload handler, source lines 236-299:
set the active canvas filter (the source guards on the truthiness of
`currentFilter.canvasFilter`, and only the empty string is falsy), draw the
centre-cropped image into the cell, draw the overlay decoration, and - only
for index 2 - draw the footer. -/
def cellOps (canvasFilter overlayId dateStr : String) (i : Nat)
    (img : CapturedImage) : List DrawOp :=
  let yPos := cellYPos i
  let c := cropRect (img.width : ℚ) (img.height : ℚ)
  (if canvasFilter = "" then [] else [DrawOp.setFilter canvasFilter])
  ++ [DrawOp.drawImage c.sx c.sy c.sW c.sH
        (sidePadding : ℚ) yPos (photoWidth : ℚ) (photoHeight : ℚ)]
  ++ overlayOps overlayId yPos
  ++ (if i = 2 then footerOps dateStr else [])

/-- The sprocket hole vertical positions, source line 220: the loop
`for (let y = 20; y < totalHeight; y += sprocketGap + sprocketHeight)` with
step 40 + 30 = 70, i.e. every `y < totalHeight` of the form `20 + 70k`. -/
def sprocketYs : List Nat :=
  (List.range totalHeight).filter (fun y => 20 ≤ y ∧ (y - 20) % 70 = 0)

/-- The sprocket decoration operations, source lines 213-231: one rounded
rectangle near each margin per position. -/
def sprocketOps : List DrawOp :=
  sprocketYs.flatMap (fun y =>
    [DrawOp.roundRect 15 (y : ℚ) 20 30 4 ("#e5e5e5"),
     DrawOp.roundRect ((totalWidth : ℚ) - 15 - 20) (y : ℚ) 20 30 4 ("#e5e5e5")])

/-- The content of the strip canvas after a render: the photo list it was
composited from plus the filter/overlay selection in force.  An entry that is
`none` is a cell whose image data URL was `undefined`, so its onload handler
never fires and the cell is never drawn. -/
structure Strip where
  photos : List (Option CapturedImage)
  filt : String
  overlayId : String
deriving DecidableEq, Repr

/-- All draw operations of one full strip render, source lines 209-301, with
the per-image onload handlers completing in index order: the dark background,
the sprocket holes, then each cell. -/
def stripOps (dateStr : String) (s : Strip) : List DrawOp :=
  [DrawOp.fillRect 0 0 (totalWidth : ℚ) (totalHeight : ℚ) ("#111111")]
  ++ sprocketOps
  ++ (s.photos.enum.flatMap (fun p =>
        match p.2 with
        | none => []
        | some img => cellOps s.filt s.overlayId dateStr p.1 img))

/-- The strip-render effect, source lines 190-303: it redraws the hidden strip
canvas only when `mode === review && photos.length === 3` (the canvas ref is
always mounted); otherwise the canvas keeps its previous content. -/
def renderStripEffect (mode : Mode) (photos : List (Option CapturedImage))
    (filt overlayId : String) (canvas : Option Strip) : Option Strip :=
  if mode = Mode.review ∧ photos.length = 3 then
    some { photos := photos, filt := filt, overlayId := overlayId }
  else canvas

/-- `downloadStrip`, source lines 181-187: returns early when the canvas ref is
missing or the photo list is empty, otherwise exports the current strip canvas
content (as a PNG via `toDataURL()`). -/
def downloadStrip (canvas : Option Strip) (photos : List (Option CapturedImage)) :
    Option Strip :=
  match canvas with
  | none => none
  | some c => if photos.length = 0 then none else some c

/-- One run of the strip-render effect with the React state it closed over. -/
structure RenderStep where
  mode : Mode
  photos : List (Option CapturedImage)
  filt : String
  ovId : String

/-- Fold a sequence of effect runs over the strip canvas. -/
def runRenderEffects (steps : List RenderStep) (c : Option Strip) : Option Strip :=
  steps.foldl (fun c st => renderStripEffect st.mode st.photos st.filt st.ovId c) c

/-! ## Footer ordering (source lines 233-301)

The three per-frame draw sub-tasks are the three image onload handlers; the
browser may complete them in any order.  The handler for index `i` draws cell
`i` and, when `i === 2`, also the footer. -/

/-- An observable compositing event: cell `i` was drawn, or the footer was
drawn. -/
inductive StripEvent
  | cellDrawn (i : Nat)
  | footerDrawn
deriving DecidableEq, Repr

/-- The events produced by the onload handler of image `i`, source lines
236-299: draw cell `i`, then the footer exactly when `i = 2`. -/
def onloadEvents (i : Nat) : List StripEvent :=
  [StripEvent.cellDrawn i] ++ (if i = 2 then [StripEvent.footerDrawn] else [])

/-- The event sequence when the onload handlers complete in the given order. -/
def stripEventsFor (order : List Nat) : List StripEvent :=
  order.flatMap onloadEvents

/-- Whether every footer-drawn event is preceded by all three cell draws. -/
def footerAfterAllCells : List Nat → List StripEvent → Bool
  | _, [] => true
  | drawn, StripEvent.cellDrawn i :: rest => footerAfterAllCells (i :: drawn) rest
  | drawn, StripEvent.footerDrawn :: rest =>
      (drawn.contains 0 && drawn.contains 1 && drawn.contains 2)
        && footerAfterAllCells drawn rest

/-! ## Filter / overlay selection (source lines 429-443 and 467-477) -/

/-- The React state the selection handlers and the strip effect touch. -/
structure UIState where
  mode : Mode
  photos : List (Option CapturedImage)
  currentFilter : Filter
  currentOverlay : Overlay
  stripCanvas : Option Strip
deriving Repr

/-- The filter button handler, source line 432: `setCurrentFilter(f)`. -/
def selectFilter (f : Filter) (s : UIState) : UIState :=
  { s with currentFilter := f }

/-- The overlay button handler, source line 470: `setCurrentOverlay(o)`. -/
def selectOverlay (o : Overlay) (s : UIState) : UIState :=
  { s with currentOverlay := o }

/-- The strip-render effect re-running after a state change (its dependency
array is `[mode, photos, currentFilter, currentOverlay]`). -/
def uiRenderEffect (s : UIState) : UIState :=
  { s with
    stripCanvas := renderStripEffect s.mode s.photos s.currentFilter.canvasFilter
                     s.currentOverlay.id s.stripCanvas }

/-! ## Verification-side definitions -/

/-- The per-timer component of the sequencer invariant for a single session:
a pending countdown interval or inter-shot delay exists only in countdown mode,
and the photo list holds exactly the frames of the iterations that already
completed. -/
def TimerOk (mode : Mode) (len : Nat) : Timer → Prop
  | Timer.interval count tv _ =>
      mode = Mode.countdown ∧ len = count ∧ count < 3 ∧ 1 ≤ tv ∧ tv ≤ 3
  | Timer.delay count _ => mode = Mode.countdown ∧ len = count ∧ count ≤ 3
  | Timer.flashOff => True

/-- The sequencer invariant that holds throughout a single session (one
`startSequence` from the initial state followed by timer firings): at most one
sequencing timer is pending, every pending timer is consistent with the photo
count, review is reached only with exactly 3 list entries and no pending
sequencing timer, and idle has no pending sequencing timer. -/
structure Inv (s : BoothState) : Prop where
  uniq : seqCount s.timers ≤ 1
  ok : ∀ t ∈ s.timers, TimerOk s.mode s.photos.length t
  review_full : s.mode = Mode.review → s.photos.length = 3 ∧ seqCount s.timers = 0
  idle_clear : s.mode = Mode.idle → seqCount s.timers = 0

/-- The crop-correctness property of claim C5 for a source of size `w × h`:
the crop has exactly the destination cell aspect ratio (so the subsequent
`drawImage` into the `photoWidth × photoHeight` cell scales uniformly), is
nonempty, lies inside the source, and in the cropped axis the margins on the
two sides are equal while the other axis is kept whole. -/
def CropOk (w h : ℚ) : Prop :=
  let c := cropRect w h
  c.sW * (photoHeight : ℚ) = c.sH * (photoWidth : ℚ)
  ∧ 0 < c.sW ∧ 0 < c.sH
  ∧ 0 ≤ c.sx ∧ c.sx + c.sW ≤ w
  ∧ 0 ≤ c.sy ∧ c.sy + c.sH ≤ h
  ∧ (w / h > cellAspect →
       c.sH = h ∧ c.sy = 0 ∧ c.sx = w - (c.sx + c.sW))
  ∧ (¬ w / h > cellAspect →
       c.sW = w ∧ c.sx = 0 ∧ c.sy = h - (c.sy + c.sH))

/-- Every strip held by the canvas (if any) was composited from exactly 3
photo-list entries. -/
def allFullStrip (c : Option Strip) : Prop := ∀ s ∈ c, s.photos.length = 3

/-- The canvas filter state threaded through a draw-operation list: each
drawing operation is paired with the `ctx.filter` value in force when it
executes (a `setFilter` op updates the state and draws nothing).  This mirrors
canvas semantics: the filter persists until changed, and applies to every
drawing call, `fillRect` with a gradient fill style included. -/
def opsWithFilter (cur : String) : List DrawOp → List (String × DrawOp)
  | [] => []
  | DrawOp.setFilter f :: rest => opsWithFilter f rest
  | op :: rest => (cur, op) :: opsWithFilter cur rest

/-- The decoration contract of claim C7 as the code actually behaves, for a
photo cell in row `i` (a non-footer row), selected canvas filter `f`, source
image `img` and any cell offset `y`: the overlay draw lists (vignette gradient
centred on the cell and filling exactly its rectangle; two heart glyphs
anchored at fixed offsets inside the cell; nothing for the other overlay
kinds), together with the filter state in force at each drawing operation of
the cell: the selected filter `f` at the photo draw AND at the vignette
gradient (the vignette decoration is drawn filtered), but `none` at the heart
glyphs (only the hearts branch suspends the chain, source line 279). -/
def OverlayContract (y : ℚ) (f dateStr : String) (img : CapturedImage)
    (i : Nat) : Prop :=
  overlayOps ("vignette") y
      = [DrawOp.radialGradientRect ((sidePadding : ℚ) + (photoWidth : ℚ) / 2)
           (y + (photoHeight : ℚ) / 2) ((photoHeight : ℚ) * (3 / 10))
           ((photoHeight : ℚ) * (8 / 10)) ("rgba(0,0,0,0)") ("rgba(0,0,0,0.6)")
           (sidePadding : ℚ) y (photoWidth : ℚ) (photoHeight : ℚ)]
  ∧ ((sidePadding : ℚ) + (photoWidth : ℚ) / 2) - (sidePadding : ℚ)
      = ((sidePadding : ℚ) + (photoWidth : ℚ))
          - ((sidePadding : ℚ) + (photoWidth : ℚ) / 2)
  ∧ (y + (photoHeight : ℚ) / 2) - y
      = (y + (photoHeight : ℚ)) - (y + (photoHeight : ℚ) / 2)
  ∧ (photoHeight : ℚ) * (3 / 10) < (photoHeight : ℚ) * (8 / 10)
  ∧ overlayOps ("hearts") y
      = [DrawOp.setFilter ("none"),
         DrawOp.fillText ("♥") ((sidePadding : ℚ) + 20) (y + 50)
           ("40px serif") ("rgba(255, 150, 150, 0.7)"),
         DrawOp.fillText ("♥") ((sidePadding : ℚ) + (photoWidth : ℚ) - 50)
           (y + (photoHeight : ℚ) - 20)
           ("40px serif") ("rgba(255, 150, 150, 0.7)")]
  ∧ ((sidePadding : ℚ) ≤ (sidePadding : ℚ) + 20
      ∧ (sidePadding : ℚ) + 20 ≤ (sidePadding : ℚ) + (photoWidth : ℚ))
  ∧ (y ≤ y + 50 ∧ y + 50 ≤ y + (photoHeight : ℚ))
  ∧ ((sidePadding : ℚ) ≤ (sidePadding : ℚ) + (photoWidth : ℚ) - 50
      ∧ (sidePadding : ℚ) + (photoWidth : ℚ) - 50
          ≤ (sidePadding : ℚ) + (photoWidth : ℚ))
  ∧ (y ≤ y + (photoHeight : ℚ) - 20
      ∧ y + (photoHeight : ℚ) - 20 ≤ y + (photoHeight : ℚ))
  ∧ overlayOps ("none") y = []
  ∧ overlayOps ("sparkles") y = []
  ∧ overlayOps ("grain") y = []
  ∧ opsWithFilter ("none") (cellOps f ("vignette") dateStr i img)
      = [(f, DrawOp.drawImage (cropRect (img.width : ℚ) (img.height : ℚ)).sx
               (cropRect (img.width : ℚ) (img.height : ℚ)).sy
               (cropRect (img.width : ℚ) (img.height : ℚ)).sW
               (cropRect (img.width : ℚ) (img.height : ℚ)).sH
               (sidePadding : ℚ) (cellYPos i) (photoWidth : ℚ) (photoHeight : ℚ)),
         (f, DrawOp.radialGradientRect ((sidePadding : ℚ) + (photoWidth : ℚ) / 2)
               (cellYPos i + (photoHeight : ℚ) / 2) ((photoHeight : ℚ) * (3 / 10))
               ((photoHeight : ℚ) * (8 / 10)) ("rgba(0,0,0,0)") ("rgba(0,0,0,0.6)")
               (sidePadding : ℚ) (cellYPos i) (photoWidth : ℚ) (photoHeight : ℚ))]
  ∧ opsWithFilter ("none") (cellOps f ("hearts") dateStr i img)
      = [(f, DrawOp.drawImage (cropRect (img.width : ℚ) (img.height : ℚ)).sx
               (cropRect (img.width : ℚ) (img.height : ℚ)).sy
               (cropRect (img.width : ℚ) (img.height : ℚ)).sW
               (cropRect (img.width : ℚ) (img.height : ℚ)).sH
               (sidePadding : ℚ) (cellYPos i) (photoWidth : ℚ) (photoHeight : ℚ)),
         (("none"),
          DrawOp.fillText ("♥") ((sidePadding : ℚ) + 20) (cellYPos i + 50)
            ("40px serif") ("rgba(255, 150, 150, 0.7)")),
         (("none"),
          DrawOp.fillText ("♥") ((sidePadding : ℚ) + (photoWidth : ℚ) - 50)
            (cellYPos i + (photoHeight : ℚ) - 20)
            ("40px serif") ("rgba(255, 150, 150, 0.7)"))]
  ∧ opsWithFilter ("none") (cellOps f ("none") dateStr i img)
      = [(f, DrawOp.drawImage (cropRect (img.width : ℚ) (img.height : ℚ)).sx
               (cropRect (img.width : ℚ) (img.height : ℚ)).sy
               (cropRect (img.width : ℚ) (img.height : ℚ)).sW
               (cropRect (img.width : ℚ) (img.height : ℚ)).sH
               (sidePadding : ℚ) (cellYPos i) (photoWidth : ℚ) (photoHeight : ℚ))]

/-- A concrete available video source used in witness traces. -/
def demoSrc : Option VideoSource := some { videoWidth := 640, videoHeight := 480 }

/-- The image `capturePhoto demoSrc` produces. -/
def demoImg : CapturedImage :=
  { width := 640, height := 480, mirroredX := true, encoding := ImageEncoding.jpeg 95 }

/-- A complete 3-entry photo list for witnesses. -/
def demoPhotos : List (Option CapturedImage) := [some demoImg, some demoImg, some demoImg]

/-- The strip rendered from `demoPhotos` with the default filter/overlay ids. -/
def demoStrip : Strip := { photos := demoPhotos, filt := "none", overlayId := "none" }

/-- The Classic B&W filter entry (source line 18), used in witnesses. -/
def demoFilter : Filter :=
  { id := "bw", name := "Classic B&W",
    cssClass := "grayscale contrast-110 brightness-110",
    canvasFilter := "grayscale(100%) contrast(110%) brightness(110%)" }

/-- The vignette overlay entry (source line 29), used in witnesses. -/
def demoOverlay : Overlay := { id := "vignette", name := "Vignette" }

/-- A review-mode UI state with a complete session, used in witnesses. -/
def demoUI : UIState :=
  { mode := Mode.review, photos := demoPhotos,
    currentFilter := { id := "normal", name := "Natural", cssClass := "",
                       canvasFilter := "none" },
    currentOverlay := { id := "none", name := "None" },
    stripCanvas := none }

/-- The claim-C1 interleaving: start a session, let its countdown tick twice,
then start a new session while the first countdown interval is still pending,
and finally let the stale interval fire its last tick. -/
def c1Trace : List BoothEvent :=
  [BoothEvent.start 0, BoothEvent.fire 0 demoSrc 0, BoothEvent.fire 0 demoSrc 0,
   BoothEvent.start 0]

/-- The claim-C2 run: one full session during which the video source is
unavailable at every instant (12 timer firings: per iteration three interval
ticks and the inter-shot delay; no flash-off timer is scheduled because
`capturePhoto` returns early). -/
def c2Trace : List BoothEvent :=
  BoothEvent.start 0 :: List.replicate 12 (BoothEvent.fire 0 none 0)

/-- The canonical happy-path firing schedule of one session with an available
source: per iteration three interval ticks, the flash-off timeout and the
inter-shot delay (3 × 5 = 15 firings, the last of which enters review). -/
def c3Fires : List FireEv := List.replicate 15 ((0 : Nat), demoSrc, (0 : Nat))

/-! ## Helper lemmas about pending-timer counts -/

theorem seqCount_append (l₁ l₂ : List Timer) :
    seqCount (l₁ ++ l₂) = seqCount l₁ + seqCount l₂ := by
  simp [seqCount, List.countP_append]

theorem seqCount_cons (a : Timer) (l : List Timer) :
    seqCount (a :: l) = seqCount l + (if a.isSeq then 1 else 0) := by
  simp [seqCount, List.countP_cons]

theorem seqCount_eraseIdx_add (l : List Timer) (i : Nat) (t : Timer)
    (h : l[i]? = some t) :
    seqCount l = seqCount (l.eraseIdx i) + (if t.isSeq then 1 else 0) := by
  induction l generalizing i with
  | nil => simp at h
  | cons a l ih =>
    cases i with
    | zero =>
      simp only [List.getElem?_cons_zero, Option.some.injEq] at h
      subst h
      show seqCount (a :: l) = seqCount l + (if a.isSeq then 1 else 0)
      exact seqCount_cons a l
    | succ i =>
      simp only [List.getElem?_cons_succ] at h
      show seqCount (a :: l) = seqCount (a :: l.eraseIdx i) + (if t.isSeq then 1 else 0)
      rw [seqCount_cons, seqCount_cons, ih i h]
      omega

theorem seqCount_set_same (l : List Timer) (i : Nat) (t t' : Timer)
    (h : l[i]? = some t) (hs : t.isSeq = t'.isSeq) :
    seqCount (l.set i t') = seqCount l := by
  induction l generalizing i with
  | nil => simp at h
  | cons a l ih =>
    cases i with
    | zero =>
      simp only [List.getElem?_cons_zero, Option.some.injEq] at h
      subst h
      show seqCount (t' :: l) = seqCount (a :: l)
      rw [seqCount_cons, seqCount_cons, hs]
    | succ i =>
      simp only [List.getElem?_cons_succ] at h
      show seqCount (a :: l.set i t') = seqCount (a :: l)
      rw [seqCount_cons, seqCount_cons, ih i h]

theorem isSeq_false_of_seqCount_zero {l : List Timer} (h : seqCount l = 0)
    {t : Timer} (ht : t ∈ l) : t.isSeq = false := by
  have := List.countP_eq_zero.mp h t ht
  simpa using this

theorem eq_flashOff_of_isSeq_false {t : Timer} (h : t.isSeq = false) :
    t = Timer.flashOff := by
  cases t <;> simp_all [Timer.isSeq]

/-! ## The single-session sequencer invariant -/

theorem inv_of_fields (mode : Mode) (photos : List (Option Frame)) (cd : Option Int)
    (pr : String) (fl : Bool) (tm : List Timer) (g : Nat)
    (h1 : seqCount tm ≤ 1)
    (h2 : ∀ t ∈ tm, TimerOk mode photos.length t)
    (h3 : mode = Mode.review → photos.length = 3 ∧ seqCount tm = 0)
    (h4 : mode = Mode.idle → seqCount tm = 0) :
    Inv { mode := mode, photos := photos, countdown := cd, currentPrompt := pr,
          flashActive := fl, timers := tm, gen := g } :=
  ⟨h1, h2, h3, h4⟩

theorem inv_startSequence (r : Nat) : Inv (startSequence r boothInit) := by
  have hs : startSequence r boothInit
      = { mode := Mode.countdown, photos := [], countdown := some 3,
          currentPrompt := PROMPTS.getD (r % PROMPTS.length) "",
          flashActive := false, timers := [Timer.interval 0 3 1], gen := 1 } := rfl
  rw [hs]
  refine inv_of_fields _ _ _ _ _ _ _ ?_ ?_ ?_ ?_
  · decide
  · intro t ht
    simp only [List.mem_singleton] at ht
    subst ht
    exact ⟨rfl, rfl, by norm_num, by norm_num, by norm_num⟩
  · intro hm
    cases hm
  · intro hm
    cases hm

theorem inv_fireTimer (s : BoothState) (h : Inv s) (i : Nat)
    (src : Option VideoSource) (r : Nat) : Inv (fireTimer i src r s) := by
  unfold fireTimer
  split
  · exact h
  · rename_i hget
    have hmem : Timer.flashOff ∈ s.timers := List.getElem?_mem hget
    have he := seqCount_eraseIdx_add s.timers i _ hget
    simp [Timer.isSeq] at he
    refine inv_of_fields _ _ _ _ _ _ _ ?_ ?_ ?_ ?_
    · have := h.uniq; omega
    · intro t' ht'
      exact h.ok t' (List.mem_of_mem_eraseIdx ht')
    · intro hm
      have := h.review_full hm
      exact ⟨this.1, by omega⟩
    · intro hm
      have := h.idle_clear hm
      omega
  · rename_i count tv g hget
    have hmem : Timer.interval count tv g ∈ s.timers := List.getElem?_mem hget
    have hok := h.ok _ hmem
    simp only [TimerOk] at hok
    obtain ⟨hmode, hlen, hc3, htv1, htv3⟩ := hok
    have he := seqCount_eraseIdx_add s.timers i _ hget
    simp [Timer.isSeq] at he
    have herase : seqCount (s.timers.eraseIdx i) = 0 := by
      have := h.uniq; omega
    have hflash : ∀ t' ∈ s.timers.eraseIdx i, t' = Timer.flashOff := fun t' ht' =>
      eq_flashOff_of_isSeq_false (isSeq_false_of_seqCount_zero herase ht')
    by_cases htv : tv - 1 = 0
    · rw [if_pos htv]
      split
      · refine inv_of_fields _ _ _ _ _ _ _ ?_ ?_ ?_ ?_
        · rw [seqCount_append, herase]
          simp [seqCount, List.countP_cons, Timer.isSeq]
        · intro t' ht'
          rcases List.mem_append.mp ht' with hl | hr
          · rw [hflash t' hl]; trivial
          · simp only [List.mem_singleton] at hr
            subst hr
            exact ⟨hmode, by simp [hlen], by omega⟩
        · intro hm
          rw [hmode] at hm
          cases hm
        · intro hm
          rw [hmode] at hm
          cases hm
      · rename_i img hcap
        refine inv_of_fields _ _ _ _ _ _ _ ?_ ?_ ?_ ?_
        · rw [seqCount_append, herase]
          simp [seqCount, List.countP_cons, Timer.isSeq]
        · intro t' ht'
          rcases List.mem_append.mp ht' with hl | hr
          · rw [hflash t' hl]; trivial
          · rcases List.mem_cons.mp hr with h1 | h2
            · subst h1; trivial
            · simp only [List.mem_singleton] at h2
              subst h2
              exact ⟨hmode, by simp [hlen], by omega⟩
        · intro hm
          rw [hmode] at hm
          cases hm
        · intro hm
          rw [hmode] at hm
          cases hm
    · rw [if_neg htv]
      refine inv_of_fields _ _ _ _ _ _ _ ?_ ?_ ?_ ?_
      · rw [seqCount_set_same s.timers i _ _ hget (by simp [Timer.isSeq])]
        exact h.uniq
      · intro t' ht'
        rcases List.mem_or_eq_of_mem_set ht' with hl | hr
        · exact h.ok t' hl
        · subst hr
          exact ⟨hmode, hlen, hc3, by omega, by omega⟩
      · intro hm
        rw [hmode] at hm
        cases hm
      · intro hm
        rw [hmode] at hm
        cases hm
  · rename_i count g hget
    have hmem : Timer.delay count g ∈ s.timers := List.getElem?_mem hget
    have hok := h.ok _ hmem
    simp only [TimerOk] at hok
    obtain ⟨hmode, hlen, hc3⟩ := hok
    have he := seqCount_eraseIdx_add s.timers i _ hget
    simp [Timer.isSeq] at he
    have herase : seqCount (s.timers.eraseIdx i) = 0 := by
      have := h.uniq; omega
    have hflash : ∀ t' ∈ s.timers.eraseIdx i, t' = Timer.flashOff := fun t' ht' =>
      eq_flashOff_of_isSeq_false (isSeq_false_of_seqCount_zero herase ht')
    unfold runSequence
    by_cases hcnt : count ≥ 3
    · rw [if_pos hcnt]
      show Inv { s with mode := Mode.review, timers := s.timers.eraseIdx i }
      refine inv_of_fields _ _ _ _ _ _ _ ?_ ?_ ?_ ?_
      · omega
      · intro t' ht'
        rw [hflash t' ht']; trivial
      · intro _
        exact ⟨by omega, herase⟩
      · intro hm
        cases hm
    · rw [if_neg hcnt]
      show Inv { s with currentPrompt := PROMPTS.getD (r % PROMPTS.length) "",
                        countdown := some 3,
                        timers := s.timers.eraseIdx i ++ [Timer.interval count 3 g] }
      refine inv_of_fields _ _ _ _ _ _ _ ?_ ?_ ?_ ?_
      · rw [seqCount_append, herase]
        simp [seqCount, List.countP_cons, Timer.isSeq]
      · intro t' ht'
        rcases List.mem_append.mp ht' with hl | hr
        · rw [hflash t' hl]; trivial
        · simp only [List.mem_singleton] at hr
          subst hr
          exact ⟨hmode, hlen, by omega, by norm_num, by norm_num⟩
      · intro hm
        rw [hmode] at hm
        cases hm
      · intro hm
        rw [hmode] at hm
        cases hm

theorem inv_runFires (fs : List FireEv) (s : BoothState) (h : Inv s) :
    Inv (runFires fs s) := by
  induction fs generalizing s with
  | nil => exact h
  | cons f fs ih => exact ih _ (inv_fireTimer s h f.1 f.2.1 f.2.2)

theorem fireTimer_of_review (s : BoothState) (h : Inv s) (hm : s.mode = Mode.review)
    (i : Nat) (src : Option VideoSource) (r : Nat) :
    (fireTimer i src r s).photos = s.photos
    ∧ (fireTimer i src r s).mode = Mode.review := by
  have hseq0 := (h.review_full hm).2
  unfold fireTimer
  cases hget : s.timers[i]? with
  | none => exact ⟨rfl, hm⟩
  | some t =>
    have hmem : t ∈ s.timers := List.getElem?_mem hget
    have hfo := eq_flashOff_of_isSeq_false (isSeq_false_of_seqCount_zero hseq0 hmem)
    subst hfo
    exact ⟨rfl, hm⟩

theorem runFires_of_review (fs : List FireEv) (s : BoothState) (h : Inv s)
    (hm : s.mode = Mode.review) :
    (runFires fs s).photos = s.photos ∧ (runFires fs s).mode = Mode.review := by
  induction fs generalizing s with
  | nil => exact ⟨rfl, hm⟩
  | cons f fs ih =>
    have hstep := fireTimer_of_review s h hm f.1 f.2.1 f.2.2
    have hinv := inv_fireTimer s h f.1 f.2.1 f.2.2
    have hrec := ih (fireTimer f.1 f.2.1 f.2.2 s) hinv hstep.2
    exact ⟨hrec.1.trans hstep.1, hrec.2⟩

theorem fireTimer_allSome (s : BoothState) (i : Nat) (src : Option VideoSource)
    (r : Nat) (hsrc : src.isSome = true)
    (h : s.photos.all Option.isSome = true) :
    (fireTimer i src r s).photos.all Option.isSome = true := by
  unfold fireTimer
  split
  · exact h
  · exact h
  · rename_i count tv g hget
    by_cases htv : tv - 1 = 0
    · rw [if_pos htv]
      split
      · rename_i hcap
        cases src with
        | none => simp at hsrc
        | some v => simp [capturePhoto] at hcap
      · rename_i img hcap
        show ((s.photos ++ [some (Frame.mk g img)]).all Option.isSome) = true
        simp [List.all_append, h]
    · rw [if_neg htv]
      exact h
  · rename_i count g hget
    unfold runSequence
    by_cases hcnt : count ≥ 3
    · rw [if_pos hcnt]
      exact h
    · rw [if_neg hcnt]
      exact h

theorem runFires_allSome (fs : List FireEv) (s : BoothState)
    (hsrc : ∀ f ∈ fs, (f.2.1).isSome = true)
    (h : s.photos.all Option.isSome = true) :
    (runFires fs s).photos.all Option.isSome = true := by
  induction fs generalizing s with
  | nil => exact h
  | cons f fs ih =>
    exact ih _ (fun f' hf' => hsrc f' (List.mem_cons_of_mem f hf'))
      (fireTimer_allSome s f.1 f.2.1 f.2.2 (hsrc f (List.mem_cons_self f fs)) h)

/-! ## The claims -/

/-- C1: the claim states that starting a new session (or resetting) while a
countdown timer or inter-shot delay is pending invalidates the pending timer,
so that the new session contains only frames captured after the new start and
at most one countdown timer is ever active.  The code has no cancellation:
after `c1Trace` (start, two ticks, start again) two countdown intervals are
pending at once (`seqCount = 2`), `resetBooth` leaves both pending timers in
place, and firing the stale generation-1 interval appends a generation-1 frame
to the generation-2 session's photo list, which the new session then holds. -/
theorem c1_stale_timer_leaks :
    ((runBooth c1Trace boothInit).gen = 2
      ∧ (runBooth c1Trace boothInit).mode = Mode.countdown
      ∧ (runBooth c1Trace boothInit).photos = []
      ∧ seqCount (runBooth c1Trace boothInit).timers = 2)
  ∧ (resetBooth (runBooth c1Trace boothInit)).timers
      = (runBooth c1Trace boothInit).timers
  ∧ ((fireTimer 0 demoSrc 0 (runBooth c1Trace boothInit)).gen = 2
      ∧ (fireTimer 0 demoSrc 0 (runBooth c1Trace boothInit)).photos
          = [some { gen := 1, img := demoImg }]) := by
  decide

/-- C2: the claim states that when the frame source is unavailable (or has zero
intrinsic size) at the instant a countdown reaches zero, no frame and no
placeholder is appended and the controller does not advance.  In the code,
`capturePhoto` returns `undefined` for a missing source (and performs no
zero-size check at all), yet `runSequence` unconditionally appends the result
and schedules the next iteration: a full session with the source unavailable
throughout reaches review with three placeholder entries, and a zero-size
source yields a 0 × 0 image instead of a failure. -/
theorem c2_capture_failure_appends_placeholder :
    (runBooth c2Trace boothInit).mode = Mode.review
  ∧ (runBooth c2Trace boothInit).photos = [none, none, none]
  ∧ capturePhoto none = none
  ∧ capturePhoto (some { videoWidth := 0, videoHeight := 0 })
      = some { width := 0, height := 0, mirroredX := true,
               encoding := ImageEncoding.jpeg 95 } := by
  decide

/-- C3: from idle, one `startSequence` followed by any schedule of timer
firings reaches review only with exactly 3 photo-list entries; if the source is
available at every firing all 3 entries are genuine captures; once in review no
further firing changes the photo list or leaves review; and the canonical
happy-path schedule does reach review with 3 captured frames. -/
theorem c3_review_exactly_three :
    (∀ (r : Nat) (fs : List FireEv),
        (runFires fs (startSequence r boothInit)).mode = Mode.review →
          (runFires fs (startSequence r boothInit)).photos.length = 3)
  ∧ (∀ (r : Nat) (fs : List FireEv),
        (∀ f ∈ fs, (f.2.1).isSome = true) →
          (runFires fs (startSequence r boothInit)).photos.all Option.isSome = true)
  ∧ (∀ (r : Nat) (fs fs' : List FireEv),
        (runFires fs (startSequence r boothInit)).mode = Mode.review →
          (runFires fs' (runFires fs (startSequence r boothInit))).photos
              = (runFires fs (startSequence r boothInit)).photos
          ∧ (runFires fs' (runFires fs (startSequence r boothInit))).mode
              = Mode.review)
  ∧ ((runFires c3Fires (startSequence 0 boothInit)).mode = Mode.review
      ∧ (runFires c3Fires (startSequence 0 boothInit)).photos.length = 3
      ∧ (runFires c3Fires (startSequence 0 boothInit)).photos.all Option.isSome
          = true) := by
  refine ⟨?_, ?_, ?_, ?_⟩
  · intro r fs hm
    exact ((inv_runFires fs _ (inv_startSequence r)).review_full hm).1
  · intro r fs hs
    exact runFires_allSome fs _ hs rfl
  · intro r fs fs' hm
    exact runFires_of_review fs' _ (inv_runFires fs _ (inv_startSequence r)) hm
  · exact ⟨by decide, by decide, by decide⟩

/-- Witness for C3: the canonical schedule discharges the hypotheses of all
three universal components at concrete inputs. -/
theorem c3_review_exactly_three_witness :
    (runFires c3Fires (startSequence 0 boothInit)).photos.length = 3
  ∧ (runFires c3Fires (startSequence 0 boothInit)).photos.all Option.isSome = true
  ∧ (runFires [((0 : Nat), demoSrc, (0 : Nat))]
        (runFires c3Fires (startSequence 0 boothInit))).mode = Mode.review :=
  ⟨c3_review_exactly_three.1 0 c3Fires (by decide),
   c3_review_exactly_three.2.1 0 c3Fires (by decide),
   (c3_review_exactly_three.2.2.1 0 c3Fires [((0 : Nat), demoSrc, (0 : Nat))]
      (by decide)).2⟩

/-- C4, counterexample: the claim states the captured pixel data is encoded
losslessly in memory, with compression applied only at export time.  At a
concrete available source, the image `capturePhoto` returns is JPEG-encoded
(`toDataURL(image/jpeg, 0.95)` at source line 120), which is not lossless. -/
theorem c4_capture_is_lossy :
    (capturePhoto (some { videoWidth := 1280, videoHeight := 720 })).map
        (fun img => img.encoding.lossless) = some false := by
  decide

/-- C4, amended: `capturePhoto` returns a still image sized exactly to the
source's current intrinsic resolution and mirrored horizontally, but encoded as
lossy JPEG (quality 0.95) at capture time; the lossless PNG encoding is used by
the export step (`toDataURL()` at source line 185), i.e. the claim's
capture/export encoding roles are reversed in the code. -/
theorem c4_capture_dimensions_mirror_encoding (v : VideoSource) :
    capturePhoto (some v)
      = some { width := v.videoWidth, height := v.videoHeight,
               mirroredX := true, encoding := ImageEncoding.jpeg 95 }
  ∧ (ImageEncoding.jpeg 95).lossless = false
  ∧ exportEncoding.lossless = true :=
  ⟨rfl, rfl, rfl⟩

/-- C5: for every source with positive width and height, the crop rectangle has
exactly the destination cell aspect ratio (`sW * photoHeight = sH * photoWidth`,
so drawing it into the `photoWidth × photoHeight` cell scales both axes by the
same factor and never stretches non-uniformly), lies entirely within the
source, and is centred along the cropped axis: a source wider than the cell
aspect keeps its full height and has equal left and right margins, any other
source keeps its full width and has equal top and bottom margins. -/
theorem c5_crop_aspect_and_centering (w h : ℚ) (hw : 0 < w) (hh : 0 < h) :
    CropOk w h := by
  have hca : cellAspect = 4 / 3 := by
    norm_num [cellAspect, photoWidth, photoHeight]
  have hph : (photoHeight : ℚ) = 450 := by norm_num [photoHeight]
  have hpw : (photoWidth : ℚ) = 600 := by norm_num [photoWidth]
  unfold CropOk cropRect
  rw [hca, hph, hpw]
  by_cases hc : w / h > 4 / 3
  · rw [if_pos hc]
    dsimp only
    have hwgt : 4 / 3 * h < w := (lt_div_iff₀ hh).mp hc
    refine ⟨by ring, by nlinarith, hh, by nlinarith, by nlinarith, le_refl 0,
            by nlinarith, ?_, ?_⟩
    · intro _
      exact ⟨rfl, rfl, by ring⟩
    · intro hnc
      exact absurd hc hnc
  · rw [if_neg hc]
    dsimp only
    have hwle : w ≤ 4 / 3 * h := (div_le_iff₀ hh).mp (not_lt.mp hc)
    have h34 : w / (4 / 3 : ℚ) = 3 / 4 * w := by ring
    refine ⟨by ring, hw, ?_, le_refl 0, by nlinarith, ?_, ?_, ?_, ?_⟩
    · rw [h34]; nlinarith
    · rw [h34]; nlinarith
    · rw [h34]; nlinarith
    · intro hcc
      exact absurd hcc hc
    · intro _
      exact ⟨rfl, rfl, by ring⟩

/-- Witness for C5 at a concrete 16:9 source (wider than the 4:3 cell). -/
theorem c5_crop_aspect_and_centering_witness :
    (0 : ℚ) < 1920 ∧ (0 : ℚ) < 1080 ∧ CropOk 1920 1080 :=
  ⟨by norm_num, by norm_num,
   c5_crop_aspect_and_centering 1920 1080 (by norm_num) (by norm_num)⟩

/-- C6: the strip canvas dimensions are computed from the fixed layout
constants as width = photoWidth + 2 × sidePadding and height = topPadding +
3 × photoHeight + 2 × gap + bottomPadding, giving a 760 × 1570 canvas, and
every render starts by filling exactly that `totalWidth × totalHeight`
background rectangle. -/
theorem c6_strip_dimensions :
    totalWidth = photoWidth + 2 * sidePadding
  ∧ totalHeight = topPadding + 3 * photoHeight + 2 * gap + bottomPadding
  ∧ totalWidth = 760
  ∧ totalHeight = 1570
  ∧ ∀ (d : String) (s : Strip),
      (stripOps d s).head?
        = some (DrawOp.fillRect 0 0 (totalWidth : ℚ) (totalHeight : ℚ)
            ("#111111")) := by
  exact ⟨by decide, by decide, by decide, by decide, fun d s => rfl⟩

/-- C7, counterexample: the claim states that overlay decorations are never
filtered.  The code resets `ctx.filter` only in the hearts branch (source line
279); the vignette gradient `fillRect` (source lines 269-277) runs with the
active filter still set.  Concretely: rendering a cell with the Vintage filter
selected and the vignette overlay active, the vignette decoration (the radial
gradient, the second drawing operation of the cell) executes with the Vintage
pixel-transform chain - not `none` - in force. -/
theorem c7_vignette_decoration_filtered :
    opsWithFilter ("none")
        (cellOps ("sepia(60%) contrast(90%) brightness(90%) saturate(85%)")
           ("vignette") ("") 0 demoImg)
      = [("sepia(60%) contrast(90%) brightness(90%) saturate(85%)",
          DrawOp.drawImage (cropRect ((demoImg.width : ℚ)) ((demoImg.height : ℚ))).sx
            (cropRect ((demoImg.width : ℚ)) ((demoImg.height : ℚ))).sy
            (cropRect ((demoImg.width : ℚ)) ((demoImg.height : ℚ))).sW
            (cropRect ((demoImg.width : ℚ)) ((demoImg.height : ℚ))).sH
            (sidePadding : ℚ) (cellYPos 0) (photoWidth : ℚ) (photoHeight : ℚ)),
         ("sepia(60%) contrast(90%) brightness(90%) saturate(85%)",
          DrawOp.radialGradientRect ((sidePadding : ℚ) + (photoWidth : ℚ) / 2)
            (cellYPos 0 + (photoHeight : ℚ) / 2) ((photoHeight : ℚ) * (3 / 10))
            ((photoHeight : ℚ) * (8 / 10)) ("rgba(0,0,0,0)") ("rgba(0,0,0,0.6)")
            (sidePadding : ℚ) (cellYPos 0) (photoWidth : ℚ) (photoHeight : ℚ))]
  ∧ ("sepia(60%) contrast(90%) brightness(90%) saturate(85%)" : String) ≠ ("none") := by
  constructor
  · rfl
  · decide

/-- C7, amended: in the compositing pass, overlay decorations are drawn within
the destination cell bounds only: the vignette draws one radial darkening
gradient whose centre is the centre of the destination cell (equal distances
to the left/right and top/bottom cell edges), transparent at the centre and
0.6 black at the edge, filling exactly the cell rectangle - drawn, however,
with the active filter pixel-transform chain still in force; the hearts
overlay suspends the chain (`ctx.filter = none`) and then draws two glyph
marks whose anchors lie at fixed offsets inside the cell, so only the heart
decoration is unfiltered; and the none, sparkles and grain overlays draw
nothing in this pass. -/
theorem c7_overlay_decorations_amended (y : ℚ) (f dateStr : String)
    (img : CapturedImage) (i : Nat) (hf : f ≠ "") (hi : i ≠ 2) :
    OverlayContract y f dateStr img i := by
  have hph : (photoHeight : ℚ) = 450 := by norm_num [photoHeight]
  have hpw : (photoWidth : ℚ) = 600 := by norm_num [photoWidth]
  have hsp : (sidePadding : ℚ) = 80 := by norm_num [sidePadding]
  have hcell : ∀ ov : String, cellOps f ov dateStr i img
      = [DrawOp.setFilter f,
         DrawOp.drawImage (cropRect (img.width : ℚ) (img.height : ℚ)).sx
           (cropRect (img.width : ℚ) (img.height : ℚ)).sy
           (cropRect (img.width : ℚ) (img.height : ℚ)).sW
           (cropRect (img.width : ℚ) (img.height : ℚ)).sH
           (sidePadding : ℚ) (cellYPos i) (photoWidth : ℚ) (photoHeight : ℚ)]
        ++ overlayOps ov (cellYPos i) := by
    intro ov
    unfold cellOps
    dsimp only
    rw [if_neg hf, if_neg hi]
    simp
  unfold OverlayContract
  refine ⟨rfl, by rw [hpw, hsp]; ring, by rw [hph]; ring, by rw [hph]; norm_num,
          rfl, ?_, ?_, ?_, ?_, rfl, rfl, rfl, ?_, ?_, ?_⟩
  · rw [hpw, hsp]; constructor <;> linarith
  · rw [hph]; constructor <;> linarith
  · rw [hpw, hsp]; constructor <;> linarith
  · rw [hph]; constructor <;> linarith
  · rw [hcell ("vignette")]
    rfl
  · rw [hcell ("hearts")]
    rfl
  · rw [hcell ("none")]
    rfl

/-- Witness for the amended C7 at a concrete filter (Classic B&W), date string,
image and cell row. -/
theorem c7_overlay_decorations_amended_witness :
    OverlayContract 0 ("grayscale(100%) contrast(110%) brightness(110%)") ("")
      demoImg 0 :=
  c7_overlay_decorations_amended 0
    ("grayscale(100%) contrast(110%) brightness(110%)") ("") demoImg 0
    (by decide) (by decide)

/-- C8: the claim states the footer is drawn only after all three photo cells,
for every order in which the per-frame sub-tasks complete.  The code draws the
footer when the onload handler of index 2 runs (`if (i === 2)` at source line
289), regardless of whether the other handlers have run: with completion order
2, 0, 1 the footer is drawn immediately after cell 2, before cells 0 and 1.
Only the index order 0, 1, 2 satisfies the claimed sequencing. -/
theorem c8_footer_tied_to_index_not_completion :
    footerAfterAllCells [] (stripEventsFor [0, 1, 2]) = true
  ∧ footerAfterAllCells [] (stripEventsFor [2, 0, 1]) = false
  ∧ stripEventsFor [2, 0, 1]
      = [StripEvent.cellDrawn 2, StripEvent.footerDrawn,
         StripEvent.cellDrawn 0, StripEvent.cellDrawn 1] := by
  decide

theorem renderStripEffect_allFull (m : Mode) (ph : List (Option CapturedImage))
    (f ov : String) (c : Option Strip) (h : allFullStrip c) :
    allFullStrip (renderStripEffect m ph f ov c) := by
  unfold renderStripEffect
  split
  · rename_i hg
    intro s hs
    simp only [Option.mem_def, Option.some.injEq] at hs
    subst hs
    exact hg.2
  · exact h

theorem runRenderEffects_allFull (steps : List RenderStep) (c : Option Strip)
    (h : allFullStrip c) : allFullStrip (runRenderEffects steps c) := by
  induction steps generalizing c with
  | nil => exact h
  | cons st steps ih =>
    exact ih _ (renderStripEffect_allFull st.mode st.photos st.filt st.ovId c h)

theorem downloadStrip_sub (c : Option Strip) (ph : List (Option CapturedImage))
    (s : Strip) (h : downloadStrip c ph = some s) : c = some s := by
  cases c with
  | none => simp [downloadStrip] at h
  | some c' =>
    by_cases hp : ph.length = 0
    · simp [downloadStrip, hp] at h
    · simp [downloadStrip, hp] at h
      rw [h]

/-- C9: the strip-render effect does nothing when fewer than 3 frames are
present (the guard `photos.length === 3` at source line 191 fails, so the
canvas keeps its previous content and no partial strip is drawn), and whatever
`downloadStrip` exports from a canvas whose content was produced by render
effects is a strip composited from exactly 3 photo-list entries - no
partial-strip image is ever produced for export. -/
theorem c9_no_incomplete_strip (m : Mode)
    (ph phd : List (Option CapturedImage)) (f ov : String) (c : Option Strip)
    (steps : List RenderStep) (s : Strip)
    (hlt : ph.length < 3)
    (hdl : downloadStrip (runRenderEffects steps none) phd = some s) :
    renderStripEffect m ph f ov c = c ∧ s.photos.length = 3 := by
  constructor
  · unfold renderStripEffect
    rw [if_neg]
    rintro ⟨-, hl3⟩
    omega
  · have hfull := runRenderEffects_allFull steps none (by intro s' hs'; cases hs')
    have hc := downloadStrip_sub _ _ _ hdl
    exact hfull s (by rw [hc]; rfl)

/-- Witness for C9: rendering in idle with an empty photo list leaves the
canvas untouched, and a strip downloaded after a legitimate review render holds
3 entries. -/
theorem c9_no_incomplete_strip_witness :
    renderStripEffect Mode.idle [] ("none") ("none") none = none
  ∧ demoStrip.photos.length = 3 :=
  c9_no_incomplete_strip Mode.idle [] demoPhotos ("none") ("none") none
    [{ mode := Mode.review, photos := demoPhotos, filt := "none", ovId := "none" }]
    demoStrip (by decide) (by decide)

/-- C10: selecting a filter or an overlay changes only the current selection:
the stored frames, the photo list, the mode and the other selection are all
unchanged (in every mode, review included), and when the render effect re-runs
in review with a complete session it composites the original, unfiltered photo
list under the newly selected filter/overlay. -/
theorem c10_selection_only_changes_selection (f : Filter) (o : Overlay)
    (s : UIState) :
    ((selectFilter f s).photos = s.photos
      ∧ (selectFilter f s).mode = s.mode
      ∧ (selectFilter f s).currentFilter = f
      ∧ (selectFilter f s).currentOverlay = s.currentOverlay
      ∧ (selectFilter f s).stripCanvas = s.stripCanvas)
  ∧ ((selectOverlay o s).photos = s.photos
      ∧ (selectOverlay o s).mode = s.mode
      ∧ (selectOverlay o s).currentOverlay = o
      ∧ (selectOverlay o s).currentFilter = s.currentFilter
      ∧ (selectOverlay o s).stripCanvas = s.stripCanvas)
  ∧ (s.mode = Mode.review → s.photos.length = 3 →
      (uiRenderEffect (selectFilter f s)).stripCanvas
        = some { photos := s.photos, filt := f.canvasFilter,
                 overlayId := s.currentOverlay.id }
      ∧ (uiRenderEffect (selectOverlay o s)).stripCanvas
        = some { photos := s.photos, filt := s.currentFilter.canvasFilter,
                 overlayId := o.id }) := by
  refine ⟨⟨rfl, rfl, rfl, rfl, rfl⟩, ⟨rfl, rfl, rfl, rfl, rfl⟩, ?_⟩
  intro hm hl
  unfold uiRenderEffect selectFilter selectOverlay renderStripEffect
  constructor
  · rw [if_pos]
    exact ⟨hm, hl⟩
  · rw [if_pos]
    exact ⟨hm, hl⟩

/-- Witness for C10: selecting the Classic B&W filter in the review-mode demo
state keeps the photo list and re-composites it under the new filter. -/
theorem c10_selection_only_changes_selection_witness :
    (selectFilter demoFilter demoUI).photos = demoUI.photos
  ∧ (uiRenderEffect (selectFilter demoFilter demoUI)).stripCanvas
      = some { photos := demoPhotos, filt := demoFilter.canvasFilter,
               overlayId := "none" }
  ∧ (uiRenderEffect (selectOverlay demoOverlay demoUI)).stripCanvas
      = some { photos := demoPhotos, filt := "none", overlayId := "vignette" } :=
  ⟨(c10_selection_only_changes_selection demoFilter demoOverlay demoUI).1.1,
   ((c10_selection_only_changes_selection demoFilter demoOverlay demoUI).2.2
      (by decide) (by decide)).1,
   ((c10_selection_only_changes_selection demoFilter demoOverlay demoUI).2.2
      (by decide) (by decide)).2⟩

end PhotoBooth
